import Mathlib

/-!
Verification of the configuration data model and validation logic of the
whitebox-controller repository (package `config`, file `config.go`).

The Go code is shallowly embedded: each Go struct becomes a Lean structure,
each `Validate` method becomes a Lean function returning `Except String Unit`
(`.ok ()` models the Go `nil` error, `.error msg` a non-nil error carrying the
message). External effects are passed explicitly:
  * `os.Stat` is modelled by a predicate `fs : String → Bool` that is `true`
    exactly on the paths for which `Stat` succeeds;
  * `time.ParseDuration` is modelled by a function `pd : String → Option Int`
    that returns `some` exactly on the strings it parses;
  * `ioutil.ReadFile` and `yaml.Unmarshal` are modelled by explicit
    `Except`-valued parameters of `LoadFile`.
-/

/-- `schema.GroupVersionKind` from k8s apimachinery: three string fields. -/
structure GroupVersionKind where
  group : String
  version : String
  kind : String
deriving DecidableEq, Repr

/-- `GroupVersionKind.Empty()`: true iff all three components are empty. -/
def GroupVersionKind.Empty (g : GroupVersionKind) : Bool :=
  (g.group == "") && (g.version == "") && (g.kind == "")

/-- Model of `time.ParseDuration`: `some` exactly on parseable strings. -/
abbrev ParseDuration := String → Option Int

/-- Model of the filesystem for `os.Stat`: `true` iff stat succeeds. -/
abbrev FileSys := String → Bool

/-- `ExecHandlerConfig` struct. -/
structure ExecHandlerConfig where
  command : String
  args : List String
  workingDir : String
  env : List (String × String)
  timeout : String
  debug : Bool
deriving Repr

/-- `ExecHandlerConfig.Validate`. -/
def ExecHandlerConfig.Validate (pd : ParseDuration) (c : ExecHandlerConfig) :
    Except String Unit :=
  if c.command = "" then .error "command must be specified"
  else if c.timeout ≠ "" then
    match pd c.timeout with
    | none => .error "invalid timeout"
    | some _ => .ok ()
  else .ok ()

/-- `HTTPHanlderTLSConfig` struct (sic: the repository spells it this way). -/
structure HTTPHanlderTLSConfig where
  certFile : String
  keyFile : String
  caCertFile : String
deriving Repr

/-- `HTTPHanlderTLSConfig.Validate`, translated exactly as written in the
source: it returns an error when `CertFile` is NON-empty and when `KeyFile`
is NON-empty (the conditions are inverted relative to the error messages). -/
def HTTPHanlderTLSConfig.Validate (c : HTTPHanlderTLSConfig) :
    Except String Unit :=
  if c.certFile ≠ "" then .error "cert file must be specified"
  else if c.keyFile ≠ "" then .error "key file must be specified"
  else .ok ()

/-- `HTTPHandlerConfig` struct. -/
structure HTTPHandlerConfig where
  url : String
  tls : Option HTTPHanlderTLSConfig
  timeout : String
  debug : Bool
deriving Repr

/-- Prefix an error message, as the Go `fmt.Errorf("x: %v", err)` wrappers do. -/
def wrapErr (p : String) : Except String Unit → Except String Unit
  | .error e => .error (p ++ e)
  | .ok _ => .ok ()

/-- `HTTPHandlerConfig.Validate`. -/
def HTTPHandlerConfig.Validate (pd : ParseDuration) (c : HTTPHandlerConfig) :
    Except String Unit := do
  if c.url = "" then
    throw "url must be specified"
  match c.tls with
  | some t => wrapErr "tls: " t.Validate
  | none => pure ()
  if c.timeout ≠ "" then
    match pd c.timeout with
    | none => throw "invalid timeout"
    | some _ => pure ()

/-- `FuncHandlerConfig` struct; the `handler.Handler` interface value is
modelled only by its nil-ness (`none` = Go `nil`). -/
structure FuncHandlerConfig where
  handler : Option Unit

/-- `FuncHandlerConfig.Validate`. -/
def FuncHandlerConfig.Validate (c : FuncHandlerConfig) : Except String Unit :=
  match c.handler with
  | none => .error "handler must be specified"
  | some _ => .ok ()

/-- `HandlerConfig` struct: at most one of the three variants is meant to
be set. -/
structure HandlerConfig where
  exec : Option ExecHandlerConfig
  http : Option HTTPHandlerConfig
  func : Option FuncHandlerConfig

/-- The `specified` counter computed at the top of `HandlerConfig.Validate`. -/
def HandlerConfig.specifiedCount (c : HandlerConfig) : Nat :=
  (if c.exec.isSome then 1 else 0) + (if c.http.isSome then 1 else 0) +
    (if c.func.isSome then 1 else 0)

/-- `HandlerConfig.Validate`. -/
def HandlerConfig.Validate (pd : ParseDuration) (c : HandlerConfig) :
    Except String Unit := do
  if c.specifiedCount = 0 then
    throw "handler must be specified"
  if c.specifiedCount > 1 then
    throw "exactly one handler must be specified"
  match c.exec with
  | some e => e.Validate pd
  | none => pure ()
  match c.http with
  | some h => h.Validate pd
  | none => pure ()
  match c.func with
  | some f => f.Validate
  | none => pure ()

/-- `ReconcilerConfig` struct: an embedded `HandlerConfig` plus requeue and
observe settings. -/
structure ReconcilerConfig where
  handlerConfig : HandlerConfig
  requeueAfter : String
  observe : Bool

/-- `ReconcilerConfig.Validate`. -/
def ReconcilerConfig.Validate (pd : ParseDuration) (c : ReconcilerConfig) :
    Except String Unit := do
  if c.requeueAfter ≠ "" then
    match pd c.requeueAfter with
    | none => throw "invalid requeueAfter"
    | some _ => pure ()
  c.handlerConfig.Validate pd

/-- `DependentConfig` struct: an embedded GVK plus the orphan flag. -/
structure DependentConfig where
  groupVersionKind : GroupVersionKind
  orphan : Bool
deriving Repr

/-- The promoted `Empty` of the embedded `GroupVersionKind`. -/
def DependentConfig.Empty (c : DependentConfig) : Bool :=
  c.groupVersionKind.Empty

/-- `ReferenceConfig` struct: an embedded GVK plus `nameFieldPath`. -/
structure ReferenceConfig where
  groupVersionKind : GroupVersionKind
  nameFieldPath : String
deriving Repr

/-- `ReferenceConfig.Validate`. -/
def ReferenceConfig.Validate (c : ReferenceConfig) : Except String Unit :=
  if c.groupVersionKind.Empty then .error "resource is empty"
  else if c.nameFieldPath = "" then .error "nameFieldPath must be specified"
  else .ok ()

/-- `SyncerConfig` struct. -/
structure SyncerConfig where
  interval : String
deriving Repr

/-- `SyncerConfig.Validate`. -/
def SyncerConfig.Validate (pd : ParseDuration) (c : SyncerConfig) :
    Except String Unit :=
  if c.interval ≠ "" then
    match pd c.interval with
    | none => .error "invalid interval"
    | some _ => .ok ()
  else .ok ()

/-- `ControllerConfig` struct. -/
structure ControllerConfig where
  name : String
  resource : GroupVersionKind
  dependents : List DependentConfig
  references : List ReferenceConfig
  reconciler : Option ReconcilerConfig
  finalizer : Option HandlerConfig
  syncer : Option SyncerConfig

/-- The `for i, ref := range c.References` loop of `ControllerConfig.Validate`,
with `i` carried for the error message. -/
def validateReferences (refs : List ReferenceConfig) (i : Nat) :
    Except String Unit :=
  match refs with
  | [] => .ok ()
  | r :: rest =>
    match r.Validate with
    | .error e => .error ("references[" ++ toString i ++ "]: " ++ e)
    | .ok _ => validateReferences rest (i + 1)

/-- The `for i, dep := range c.Dependents` loop of `ControllerConfig.Validate`. -/
def validateDependents (deps : List DependentConfig) (i : Nat) :
    Except String Unit :=
  match deps with
  | [] => .ok ()
  | d :: rest =>
    if d.Empty then .error ("dependents[" ++ toString i ++ "] is empty")
    else validateDependents rest (i + 1)

/-- `ControllerConfig.Validate`. -/
def ControllerConfig.Validate (pd : ParseDuration) (c : ControllerConfig) :
    Except String Unit := do
  if c.name = "" then
    throw "name must be specified"
  if c.resource.Empty then
    throw "resource is empty"
  validateReferences c.references 0
  validateDependents c.dependents 0
  match c.reconciler with
  | none => throw "reconciler must be specified"
  | some r => wrapErr "reconciler: " (r.Validate pd)
  match c.finalizer with
  | some f => wrapErr "finalizer: " (f.Validate pd)
  | none => pure ()
  match c.syncer with
  | some s => wrapErr "syncer: " (s.Validate pd)
  | none => pure ()

/-- `WebhookTLSConfig` struct. -/
structure WebhookTLSConfig where
  certFile : String
  keyFile : String
deriving Repr

/-- `WebhookTLSConfig.Validate`. -/
def WebhookTLSConfig.Validate (c : WebhookTLSConfig) : Except String Unit :=
  if c.certFile = "" then .error "cert file must be specified"
  else if c.keyFile = "" then .error "key file must be specified"
  else .ok ()

/-- `InjectorConfig` struct: an embedded `HandlerConfig` plus the path of the
signature-verification key file. -/
structure InjectorConfig where
  handlerConfig : HandlerConfig
  verifyKeyFile : String

/-- `InjectorConfig.Validate`: `os.Stat` the key file (modelled by `fs`),
fail when stat fails, otherwise validate the embedded handler config. -/
def InjectorConfig.Validate (fs : FileSys) (pd : ParseDuration)
    (c : InjectorConfig) : Except String Unit :=
  if fs c.verifyKeyFile then c.handlerConfig.Validate pd
  else .error "failed to read verification key file"

/-- `WebhookHandlerConfig` struct. -/
structure WebhookHandlerConfig where
  resource : GroupVersionKind
  validator : Option HandlerConfig
  mutator : Option HandlerConfig
  injector : Option InjectorConfig

/-- `WebhookHandlerConfig.Validate`: checks only the resource GVK and, when
present, the validator handler. -/
def WebhookHandlerConfig.Validate (pd : ParseDuration)
    (c : WebhookHandlerConfig) : Except String Unit :=
  if c.resource.Empty then .error "resource is empty"
  else
    match c.validator with
    | some v => wrapErr "validator: " (v.Validate pd)
    | none => .ok ()

/-- `WebhookConfig` struct. -/
structure WebhookConfig where
  host : String
  port : Int
  tls : Option WebhookTLSConfig
  handlers : List WebhookHandlerConfig

/-- `WebhookConfig.Validate`: requires the TLS block and validates it; the
`Handlers` list is not validated here. -/
def WebhookConfig.Validate (c : WebhookConfig) : Except String Unit :=
  match c.tls with
  | none => .error "tls must be specified"
  | some t => wrapErr "tls: " t.Validate

/-- `MetricsConfig` struct. -/
structure MetricsConfig where
  host : String
  port : Int
deriving Repr

/-- `MetricsConfig.Validate`. -/
def MetricsConfig.Validate (c : MetricsConfig) : Except String Unit :=
  if c.port = 0 then .error "port must be specified" else .ok ()

/-- `Config` struct: the root of the configuration file. -/
structure Config where
  controllers : List ControllerConfig
  webhook : Option WebhookConfig
  metrics : Option MetricsConfig

/-- The `for i, controller := range c.Controllers` loop of `Config.Validate`. -/
def validateControllers (pd : ParseDuration) (cs : List ControllerConfig)
    (i : Nat) : Except String Unit :=
  match cs with
  | [] => .ok ()
  | c :: rest =>
    match c.Validate pd with
    | .error e => .error ("controller[" ++ toString i ++ "]: " ++ e)
    | .ok _ => validateControllers pd rest (i + 1)

/-- `Config.Validate`. -/
def Config.Validate (pd : ParseDuration) (c : Config) : Except String Unit := do
  validateControllers pd c.controllers 0
  match c.webhook with
  | some w => wrapErr "webhook: " w.Validate
  | none => pure ()
  match c.metrics with
  | some m => wrapErr "metrics: " m.Validate
  | none => pure ()

/-- `LoadFile`: read the file (modelled by `readFile`), unmarshal the YAML
(modelled by `um`), validate; each failure returns Go's `(nil, err)` pair,
success returns `(c, nil)`. -/
def LoadFile (readFile : String → Except String String)
    (um : String → Except String Config) (pd : ParseDuration) (p : String) :
    Option Config × Option String :=
  match readFile p with
  | .error e => (none, some e)
  | .ok buf =>
    match um buf with
    | .error e => (none, some e)
    | .ok c =>
      match c.Validate pd with
      | .error e => (none, some e)
      | .ok _ => (some c, none)

/-! ## Concrete sample configurations, used as witness inputs -/

/-- A concrete stand-in for `time.ParseDuration`, used only to instantiate
witnesses: it parses exactly the string "10s". -/
def sampleParse : ParseDuration :=
  fun s => if s = "10s" then some 10000000000 else none

def sampleGVK : GroupVersionKind := ⟨"example.com", "v1", "Hello"⟩

def sampleExec : ExecHandlerConfig := ⟨"/bin/handler", [], "", [], "", false⟩

def sampleHandler : HandlerConfig := ⟨some sampleExec, none, none⟩

/-- A handler config with no variant set; invalid by `HandlerConfig.Validate`. -/
def emptyHandler : HandlerConfig := ⟨none, none, none⟩

def sampleReconciler : ReconcilerConfig := ⟨sampleHandler, "", false⟩

def sampleController : ControllerConfig :=
  ⟨"hello", sampleGVK, [], [], some sampleReconciler, none, none⟩

/-- A configuration with two controllers sharing the name "hello". -/
def dupConfig : Config := ⟨[sampleController, sampleController], none, none⟩

def sampleReference : ReferenceConfig :=
  ⟨⟨"", "v1", "ConfigMap"⟩, "spec.configRef.name"⟩

/-- A controller carrying one reference descriptor. -/
def refController : ControllerConfig :=
  ⟨"hello", sampleGVK, [], [sampleReference], some sampleReconciler, none, none⟩

def sampleInjector : InjectorConfig := ⟨sampleHandler, "/etc/key.pem"⟩

/-- A webhook handler entry whose mutator slot holds an invalid handler
config and whose injector is absent. -/
def sampleWebhookHandler : WebhookHandlerConfig :=
  ⟨sampleGVK, none, some emptyHandler, none⟩

/-- A config whose webhook section has no TLS block. -/
def noTLSConfig : Config := ⟨[], some ⟨"", 443, none, []⟩, none⟩

def emptyConfig : Config := ⟨[], none, none⟩

/-! ## Basic lemmas about the `Except`-based control flow -/

theorem wrapErr_ok_iff (p : String) (x : Except String Unit) :
    wrapErr p x = .ok () ↔ x = .ok () := by
  cases x with
  | error e => simp [wrapErr]
  | ok u => cases u; simp [wrapErr]

theorem except_throw_eq (e : String) :
    (throw e : Except String Unit) = .error e := rfl

theorem except_not_ok_iff (x : Except String Unit) :
    x ≠ .ok () ↔ ∃ e, x = .error e := by
  cases x with
  | error e => simp
  | ok u => cases u; simp

theorem except_bind_eq_ok_iff (x : Except String PUnit)
    (f : PUnit → Except String PUnit) :
    (x >>= f) = .ok PUnit.unit ↔
      x = .ok PUnit.unit ∧ f PUnit.unit = .ok PUnit.unit := by
  cases x with
  | error e => simp [Bind.bind, Except.bind]
  | ok u => cases u; simp [Bind.bind, Except.bind]

theorem except_pure_eq :
    (pure PUnit.unit : Except String PUnit) = .ok PUnit.unit := rfl

/-! ## Characterisations of the validators -/

theorem execHandler_validate_ok_iff (pd : ParseDuration) (c : ExecHandlerConfig) :
    c.Validate pd = .ok () ↔
      c.command ≠ "" ∧ (c.timeout = "" ∨ (pd c.timeout).isSome) := by
  unfold ExecHandlerConfig.Validate
  split_ifs <;> simp_all
  · cases h : pd c.timeout <;> simp_all

theorem httpHandler_validate_ok_iff (pd : ParseDuration) (c : HTTPHandlerConfig) :
    c.Validate pd = .ok () ↔
      c.url ≠ "" ∧ (∀ t, c.tls = some t → t.Validate = .ok ()) ∧
      (c.timeout = "" ∨ (pd c.timeout).isSome) := by
  unfold HTTPHandlerConfig.Validate
  simp only [except_bind_eq_ok_iff]
  cases c.tls with
  | none =>
    split_ifs <;>
      simp_all [except_bind_eq_ok_iff, except_throw_eq, except_pure_eq]
    · cases h : pd c.timeout <;> simp_all
  | some t =>
    split_ifs <;>
      simp_all [wrapErr_ok_iff, except_bind_eq_ok_iff, except_throw_eq,
        except_pure_eq]
    · cases h : pd c.timeout <;>
        simp_all [except_bind_eq_ok_iff, except_pure_eq]

theorem reconciler_validate_ok_iff (pd : ParseDuration) (c : ReconcilerConfig) :
    c.Validate pd = .ok () ↔
      (c.requeueAfter = "" ∨ (pd c.requeueAfter).isSome) ∧
      c.handlerConfig.Validate pd = .ok () := by
  unfold ReconcilerConfig.Validate
  simp only [except_bind_eq_ok_iff]
  split_ifs <;>
    simp_all [except_bind_eq_ok_iff, except_throw_eq, except_pure_eq]
  · cases h : pd c.requeueAfter <;>
      simp_all [except_bind_eq_ok_iff, except_pure_eq]

theorem syncer_validate_ok_iff (pd : ParseDuration) (c : SyncerConfig) :
    c.Validate pd = .ok () ↔ c.interval = "" ∨ (pd c.interval).isSome := by
  unfold SyncerConfig.Validate
  split_ifs <;> simp_all
  · cases h : pd c.interval <;> simp_all

theorem validateReferences_ok_iff (refs : List ReferenceConfig) (i : Nat) :
    validateReferences refs i = .ok () ↔ ∀ r ∈ refs, r.Validate = .ok () := by
  induction refs generalizing i with
  | nil => simp [validateReferences]
  | cons r rest ih =>
    unfold validateReferences
    cases h : r.Validate with
    | error e => simp_all
    | ok u => cases u; simp_all

theorem validateDependents_ok_iff (deps : List DependentConfig) (i : Nat) :
    validateDependents deps i = .ok () ↔ ∀ d ∈ deps, d.Empty = false := by
  induction deps generalizing i with
  | nil => simp [validateDependents]
  | cons d rest ih =>
    unfold validateDependents
    split_ifs with h <;> simp_all

theorem controller_validate_ok_iff (pd : ParseDuration) (c : ControllerConfig) :
    c.Validate pd = .ok () ↔
      c.name ≠ "" ∧ c.resource.Empty = false ∧
      (∀ r ∈ c.references, r.Validate = .ok ()) ∧
      (∀ d ∈ c.dependents, d.Empty = false) ∧
      (∃ r, c.reconciler = some r ∧ r.Validate pd = .ok ()) ∧
      (∀ f, c.finalizer = some f → f.Validate pd = .ok ()) ∧
      (∀ s, c.syncer = some s → s.Validate pd = .ok ()) := by
  unfold ControllerConfig.Validate
  simp only [except_bind_eq_ok_iff, ← validateReferences_ok_iff c.references 0,
    ← validateDependents_ok_iff c.dependents 0]
  cases hr : c.reconciler with
  | none =>
    cases hf : c.finalizer <;> cases hs : c.syncer <;>
      split_ifs <;>
      simp_all [except_throw_eq, except_bind_eq_ok_iff, except_pure_eq,
        wrapErr_ok_iff]
  | some r =>
    cases hf : c.finalizer <;> cases hs : c.syncer <;>
      split_ifs <;>
      simp_all [except_throw_eq, except_bind_eq_ok_iff, except_pure_eq,
        wrapErr_ok_iff]

theorem validateControllers_ok_iff (pd : ParseDuration)
    (cs : List ControllerConfig) (i : Nat) :
    validateControllers pd cs i = .ok () ↔ ∀ c ∈ cs, c.Validate pd = .ok () := by
  induction cs generalizing i with
  | nil => simp [validateControllers]
  | cons c rest ih =>
    unfold validateControllers
    cases h : c.Validate pd with
    | error e => simp_all
    | ok u => cases u; simp_all

theorem config_validate_ok_iff (pd : ParseDuration) (c : Config) :
    c.Validate pd = .ok () ↔
      (∀ ctrl ∈ c.controllers, ctrl.Validate pd = .ok ()) ∧
      (∀ w, c.webhook = some w → w.Validate = .ok ()) ∧
      (∀ m, c.metrics = some m → m.Validate = .ok ()) := by
  unfold Config.Validate
  simp only [except_bind_eq_ok_iff, ← validateControllers_ok_iff pd c.controllers 0]
  cases hw : c.webhook <;> cases hm : c.metrics <;>
    simp_all [wrapErr_ok_iff, except_bind_eq_ok_iff, except_pure_eq]

theorem except_error_bind (e : String) (f : PUnit → Except String PUnit) :
    (Except.error e : Except String PUnit) >>= f = .error e := rfl

theorem handlerConfig_validate_count_zero (pd : ParseDuration)
    (c : HandlerConfig) (h : c.specifiedCount = 0) :
    c.Validate pd = .error "handler must be specified" := by
  unfold HandlerConfig.Validate
  simp [h, except_error_bind, except_throw_eq]

theorem handlerConfig_validate_count_many (pd : ParseDuration)
    (c : HandlerConfig) (h : 1 < c.specifiedCount) :
    c.Validate pd = .error "exactly one handler must be specified" := by
  unfold HandlerConfig.Validate
  have h0 : ¬ c.specifiedCount = 0 := by omega
  simp [h0, h, except_error_bind, except_throw_eq]

theorem handlerConfig_validate_exec_only (pd : ParseDuration)
    (e : ExecHandlerConfig) :
    HandlerConfig.Validate pd ⟨some e, none, none⟩ = e.Validate pd := by
  unfold HandlerConfig.Validate
  cases h : e.Validate pd with
  | error msg => simp [HandlerConfig.specifiedCount, h, except_error_bind]
  | ok u =>
    cases u
    simp [HandlerConfig.specifiedCount, h, except_pure_eq,
      except_bind_eq_ok_iff]

theorem handlerConfig_validate_http_only (pd : ParseDuration)
    (hc : HTTPHandlerConfig) :
    HandlerConfig.Validate pd ⟨none, some hc, none⟩ = hc.Validate pd := by
  unfold HandlerConfig.Validate
  cases h : hc.Validate pd with
  | error msg => simp [HandlerConfig.specifiedCount, h, except_error_bind]
  | ok u =>
    cases u
    simp [HandlerConfig.specifiedCount, h, except_pure_eq,
      except_bind_eq_ok_iff]

theorem handlerConfig_validate_func_only (pd : ParseDuration)
    (fc : FuncHandlerConfig) :
    HandlerConfig.Validate pd ⟨none, none, some fc⟩ = fc.Validate := by
  unfold HandlerConfig.Validate
  cases h : fc.Validate with
  | error msg => simp [HandlerConfig.specifiedCount, h, except_error_bind]
  | ok u =>
    cases u
    simp [HandlerConfig.specifiedCount, h, except_pure_eq,
      except_bind_eq_ok_iff]

/-! ## Claim theorems -/

/-- C1: the claim states that `HTTPHanlderTLSConfig.Validate` accepts a TLS
block exactly when both `certFile` and `keyFile` are non-empty. The code does
the opposite: on the concrete TLS config with `certFile = "cert.pem"` and
`keyFile = "key.pem"` it returns the error "cert file must be specified",
and it accepts the TLS config whose cert and key paths are both empty. -/
theorem C1_http_tls_validate_inverted :
    HTTPHanlderTLSConfig.Validate ⟨"cert.pem", "key.pem", ""⟩ =
      .error "cert file must be specified" ∧
    HTTPHanlderTLSConfig.Validate ⟨"", "", ""⟩ = .ok () := ⟨rfl, rfl⟩

/-- C2: `InjectorConfig.Validate` requires the verification key file to be
stat-able: when stat fails it returns an error, and when stat succeeds it
returns exactly the result of validating the embedded handler config. -/
theorem C2_injector_requires_key_file (fs : FileSys) (pd : ParseDuration)
    (c : InjectorConfig) :
    (fs c.verifyKeyFile = false → ∃ e, c.Validate fs pd = .error e) ∧
    (fs c.verifyKeyFile = true →
      c.Validate fs pd = c.handlerConfig.Validate pd) := by
  unfold InjectorConfig.Validate
  constructor
  · intro h
    simp [h]
  · intro h
    simp [h]

/-- Witness for C2 at a concrete injector config, once on a filesystem where
the key file is missing and once on one where it is present. -/
theorem C2_injector_requires_key_file_witness :
    (∃ e, InjectorConfig.Validate (fun _ => false) sampleParse sampleInjector =
      .error e) ∧
    InjectorConfig.Validate (fun _ => true) sampleParse sampleInjector =
      sampleInjector.handlerConfig.Validate sampleParse :=
  ⟨(C2_injector_requires_key_file (fun _ => false) sampleParse
      sampleInjector).1 rfl,
   (C2_injector_requires_key_file (fun _ => true) sampleParse
      sampleInjector).2 rfl⟩

/-- C3: `HandlerConfig.Validate` errors when zero variants are set and when
more than one is set; when exactly one variant is set, its result is exactly
the result of that variant's own validation. -/
theorem C3_handler_exactly_one_variant (pd : ParseDuration)
    (c : HandlerConfig) :
    (c.specifiedCount = 0 → ∃ e, c.Validate pd = .error e) ∧
    (1 < c.specifiedCount → ∃ e, c.Validate pd = .error e) ∧
    (∀ ec, c = ⟨some ec, none, none⟩ → c.Validate pd = ec.Validate pd) ∧
    (∀ hc, c = ⟨none, some hc, none⟩ → c.Validate pd = hc.Validate pd) ∧
    (∀ fc, c = ⟨none, none, some fc⟩ → c.Validate pd = fc.Validate) := by
  refine ⟨fun h => ⟨_, handlerConfig_validate_count_zero pd c h⟩,
    fun h => ⟨_, handlerConfig_validate_count_many pd c h⟩, ?_, ?_, ?_⟩
  · rintro ec rfl
    exact handlerConfig_validate_exec_only pd ec
  · rintro hc rfl
    exact handlerConfig_validate_http_only pd hc
  · rintro fc rfl
    exact handlerConfig_validate_func_only pd fc

/-- Witness for C3: the exec-only sample handler validates like its exec
variant, and the variant-less handler config is rejected. -/
theorem C3_handler_exactly_one_variant_witness :
    HandlerConfig.Validate sampleParse sampleHandler =
      ExecHandlerConfig.Validate sampleParse sampleExec ∧
    (∃ e, HandlerConfig.Validate sampleParse emptyHandler = .error e) :=
  ⟨(C3_handler_exactly_one_variant sampleParse sampleHandler).2.2.1
      sampleExec rfl,
   (C3_handler_exactly_one_variant sampleParse emptyHandler).1 rfl⟩

/-- C4: the reconciler handler is mandatory, the finalizer and syncer are
optional: `ControllerConfig.Validate` errors whenever `reconciler` is absent,
and succeeds on every controller with a non-empty name, non-empty resource
GVK, valid references and dependents, and a valid reconciler, even with both
`finalizer` and `syncer` absent. -/
theorem C4_reconciler_mandatory (pd : ParseDuration) (c : ControllerConfig) :
    (c.reconciler = none → ∃ e, c.Validate pd = .error e) ∧
    (∀ r, c.name ≠ "" → c.resource.Empty = false →
      (∀ ref ∈ c.references, ref.Validate = .ok ()) →
      (∀ d ∈ c.dependents, d.Empty = false) →
      c.reconciler = some r → r.Validate pd = .ok () →
      c.finalizer = none → c.syncer = none →
      c.Validate pd = .ok ()) := by
  constructor
  · intro h
    rw [← except_not_ok_iff]
    intro hok
    obtain ⟨-, -, -, -, ⟨r, hr, -⟩, -⟩ :=
      (controller_validate_ok_iff pd c).mp hok
    rw [h] at hr
    cases hr
  · intro r hname hres hrefs hdeps hrec hrok hfin hsyn
    refine (controller_validate_ok_iff pd c).mpr
      ⟨hname, hres, hrefs, hdeps, ⟨r, hrec, hrok⟩, ?_, ?_⟩
    · intro f hf
      rw [hfin] at hf
      cases hf
    · intro s hs
      rw [hsyn] at hs
      cases hs

/-- Witness for C4: the sample controller (name "hello", non-empty GVK, no
references or dependents, exec reconciler, no finalizer, no syncer) passes
validation. -/
theorem C4_reconciler_mandatory_witness :
    ControllerConfig.Validate sampleParse sampleController = .ok () :=
  (C4_reconciler_mandatory sampleParse sampleController).2 sampleReconciler
    (by decide) (by decide) (by simp [sampleController])
    (by simp [sampleController]) rfl rfl rfl rfl

/-- C5: a present webhook section with no TLS block, or with an empty
`certFile` or `keyFile`, makes `Config.Validate` fail. -/
theorem C5_webhook_requires_tls (pd : ParseDuration) (c : Config)
    (w : WebhookConfig) :
    c.webhook = some w →
    (w.tls = none ∨ ∃ t, w.tls = some t ∧ (t.certFile = "" ∨ t.keyFile = "")) →
    ∃ e, c.Validate pd = .error e := by
  intro hw hbad
  rw [← except_not_ok_iff]
  intro hok
  obtain ⟨-, hweb, -⟩ := (config_validate_ok_iff pd c).mp hok
  have hwok := hweb w hw
  unfold WebhookConfig.Validate at hwok
  rcases hbad with hnone | ⟨t, ht, hbad⟩
  · rw [hnone] at hwok
    cases hwok
  · rw [ht, wrapErr_ok_iff] at hwok
    unfold WebhookTLSConfig.Validate at hwok
    rcases hbad with h | h
    · simp [h] at hwok
    · rw [h] at hwok
      split_ifs at hwok
      simp_all

/-- Witness for C5: the concrete config whose webhook block lacks TLS is
rejected. -/
theorem C5_webhook_requires_tls_witness :
    ∃ e, Config.Validate sampleParse noTLSConfig = .error e :=
  C5_webhook_requires_tls sampleParse noTLSConfig ⟨"", 443, none, []⟩ rfl
    (Or.inl rfl)

/-- C6 counterexample: `Config.Validate` accepts `dupConfig`, whose two
controller entries carry the same name "hello"; so an accepted configuration
can contain two controllers sharing a name. -/
theorem C6_names_not_unique_counterexample :
    Config.Validate sampleParse dupConfig = .ok () ∧
    dupConfig.controllers.length = 2 ∧
    (dupConfig.controllers.get ⟨0, by decide⟩).name =
      (dupConfig.controllers.get ⟨1, by decide⟩).name := ⟨rfl, rfl, rfl⟩

/-- C6 (amended): `Config.Validate` imposes no cross-controller condition at
all — in particular no name uniqueness. It accepts a configuration exactly
when every controller validates individually, the webhook section (when
present) validates, and the metrics section (when present) validates. -/
theorem C6_validation_is_pointwise (pd : ParseDuration) (c : Config) :
    c.Validate pd = .ok () ↔
      (∀ ctrl ∈ c.controllers, ctrl.Validate pd = .ok ()) ∧
      (∀ w, c.webhook = some w → w.Validate = .ok ()) ∧
      (∀ m, c.metrics = some m → m.Validate = .ok ()) :=
  config_validate_ok_iff pd c

/-- Witness for the amended C6 at the empty configuration. -/
theorem C6_validation_is_pointwise_witness :
    Config.Validate sampleParse emptyConfig = .ok () :=
  (C6_validation_is_pointwise sampleParse emptyConfig).mpr
    ⟨by simp [emptyConfig], by simp [emptyConfig], by simp [emptyConfig]⟩

/-- C7: every duration-string field is validated uniformly: with the other
fields of its struct valid, each `Validate` accepts the empty string, accepts
any string `time.ParseDuration` parses, and errors on any other string. -/
theorem C7_duration_fields_uniform (pd : ParseDuration) (s : String) :
    (∀ sc : SyncerConfig, sc.interval = s →
      (sc.Validate pd = .ok () ↔ s = "" ∨ (pd s).isSome)) ∧
    (∀ rc : ReconcilerConfig, rc.requeueAfter = s →
      rc.handlerConfig.Validate pd = .ok () →
      (rc.Validate pd = .ok () ↔ s = "" ∨ (pd s).isSome)) ∧
    (∀ ec : ExecHandlerConfig, ec.timeout = s → ec.command ≠ "" →
      (ec.Validate pd = .ok () ↔ s = "" ∨ (pd s).isSome)) ∧
    (∀ hc : HTTPHandlerConfig, hc.timeout = s → hc.url ≠ "" →
      (∀ t, hc.tls = some t → t.Validate = .ok ()) →
      (hc.Validate pd = .ok () ↔ s = "" ∨ (pd s).isSome)) := by
  refine ⟨?_, ?_, ?_, ?_⟩
  · rintro sc rfl
    exact syncer_validate_ok_iff pd sc
  · rintro rc rfl hh
    rw [reconciler_validate_ok_iff]
    simp [hh]
  · rintro ec rfl hcmd
    rw [execHandler_validate_ok_iff]
    simp [hcmd]
  · rintro hc rfl hurl htls
    rw [httpHandler_validate_ok_iff]
    simp only [hurl, ne_eq, not_false_iff, true_and]
    constructor
    · intro h
      exact h.2
    · intro h
      exact ⟨htls, h⟩

/-- Witness for C7: the syncer accepts "10s" (parsed) and rejects "bogus"
(not parsed) under the sample duration parser. -/
theorem C7_duration_fields_uniform_witness :
    SyncerConfig.Validate sampleParse ⟨"10s"⟩ = .ok () ∧
    SyncerConfig.Validate sampleParse ⟨"bogus"⟩ ≠ .ok () := by
  constructor
  · exact ((C7_duration_fields_uniform sampleParse "10s").1 ⟨"10s"⟩ rfl).mpr
      (Or.inr (by decide))
  · intro h
    rcases ((C7_duration_fields_uniform sampleParse "bogus").1 ⟨"bogus"⟩
        rfl).mp h with h' | h'
    · exact absurd h' (by decide)
    · exact absurd h' (by decide)

/-- C8: `LoadFile` returns a config only after successful validation, and on
read, unmarshal or validation failure returns Go's `(nil, err)` pair. -/
theorem C8_loadfile_validates (rf : String → Except String String)
    (um : String → Except String Config) (pd : ParseDuration) (p : String) :
    (∀ c, LoadFile rf um pd p = (some c, none) → c.Validate pd = .ok ()) ∧
    (∀ e, rf p = .error e → LoadFile rf um pd p = (none, some e)) ∧
    (∀ buf e, rf p = .ok buf → um buf = .error e →
      LoadFile rf um pd p = (none, some e)) ∧
    (∀ buf c e, rf p = .ok buf → um buf = .ok c → c.Validate pd = .error e →
      LoadFile rf um pd p = (none, some e)) := by
  refine ⟨?_, ?_, ?_, ?_⟩
  · intro c h
    unfold LoadFile at h
    cases hrf : rf p with
    | error e => simp [hrf] at h
    | ok buf =>
      simp only [hrf] at h
      cases hum : um buf with
      | error e => simp [hum] at h
      | ok c0 =>
        simp only [hum] at h
        cases hv : Config.Validate pd c0 with
        | error e => simp [hv] at h
        | ok u =>
          cases u
          simp only [hv, Prod.mk.injEq, Option.some.injEq] at h
          obtain ⟨rfl, -⟩ := h
          exact hv
  · intro e h
    simp [LoadFile, h]
  · intro buf e hrf hum
    simp [LoadFile, hrf, hum]
  · intro buf c e hrf hum hv
    simp [LoadFile, hrf, hum, hv]

/-- Witness for C8 with concrete reader, unmarshaller and path: a successful
load yields a config that validates, and a failing read yields the error. -/
theorem C8_loadfile_validates_witness :
    Config.Validate sampleParse emptyConfig = .ok () ∧
    LoadFile (fun _ => .error "no such file")
      (fun _ => .ok emptyConfig) sampleParse "missing.yaml" =
      (none, some "no such file") :=
  ⟨(C8_loadfile_validates (fun _ => .ok "controllers: []")
      (fun _ => .ok emptyConfig) sampleParse "wc.yaml").1 emptyConfig rfl,
   (C8_loadfile_validates (fun _ => .error "no such file")
      (fun _ => .ok emptyConfig) sampleParse "missing.yaml").2.1
      "no such file" rfl⟩

/-- C9: `WebhookHandlerConfig.Validate` checks only the resource GVK and the
validator slot; with a non-empty resource and an absent or valid validator it
succeeds for every mutator and injector, valid or not. -/
theorem C9_webhook_handler_checks_validator_only (pd : ParseDuration)
    (c : WebhookHandlerConfig) :
    c.resource.Empty = false →
    (c.validator = none ∨ ∃ v, c.validator = some v ∧ v.Validate pd = .ok ()) →
    c.Validate pd = .ok () := by
  intro hres hv
  unfold WebhookHandlerConfig.Validate
  rcases hv with h | ⟨v, hv, hok⟩
  · simp [hres, h]
  · simp [hres, hv, wrapErr_ok_iff, hok]

/-- Witness for C9: the sample webhook handler entry, whose mutator slot
holds a handler config with zero variants (itself rejected by
`HandlerConfig.Validate`), still passes validation. -/
theorem C9_webhook_handler_checks_validator_only_witness :
    WebhookHandlerConfig.Validate sampleParse sampleWebhookHandler = .ok () ∧
    HandlerConfig.Validate sampleParse emptyHandler =
      .error "handler must be specified" :=
  ⟨C9_webhook_handler_checks_validator_only sampleParse sampleWebhookHandler
      (by decide) (Or.inl rfl), rfl⟩

/-- C10: `ReferenceConfig.Validate` errors exactly when the GVK is empty or
`nameFieldPath` is empty, and every reference of a controller accepted by
`ControllerConfig.Validate` has a non-empty GVK and a non-empty
`nameFieldPath`. -/
theorem C10_references_wellformed (pd : ParseDuration) (r : ReferenceConfig)
    (c : ControllerConfig) :
    ((∃ e, r.Validate = .error e) ↔
      r.groupVersionKind.Empty = true ∨ r.nameFieldPath = "") ∧
    (c.Validate pd = .ok () → ∀ ref ∈ c.references,
      ref.groupVersionKind.Empty = false ∧ ref.nameFieldPath ≠ "") := by
  have hchar : ∀ r' : ReferenceConfig, r'.Validate = .ok () ↔
      r'.groupVersionKind.Empty = false ∧ r'.nameFieldPath ≠ "" := by
    intro r'
    unfold ReferenceConfig.Validate
    split_ifs <;> simp_all
  constructor
  · rw [← except_not_ok_iff]
    simp only [ne_eq, hchar r, not_and_or, Bool.not_eq_false, not_not]
  · intro hok ref href
    have := ((controller_validate_ok_iff pd c).mp hok).2.2.1 ref href
    exact (hchar ref).mp this

/-- Witness for C10: the reference-carrying controller validates, and its
single reference indeed has a non-empty GVK and field path. -/
theorem C10_references_wellformed_witness :
    sampleReference.groupVersionKind.Empty = false ∧
    sampleReference.nameFieldPath ≠ "" :=
  (C10_references_wellformed sampleParse sampleReference refController).2
    rfl sampleReference (by simp [refController])
